import Mathlib

/-!
Shallow embedding of the generalized-alpha DAE integrators of
`cardillo/solver/genAlphaDAE.py` (classes
`GenAlphaFirstOrderVelocityGGLNormalContacts`, `GenAlphaFirstOrderVelocityGGL`
and the parameter derivation of `GenAlphaFirstOrderVelocity`), together with
the Newton routine `fsolve` context.

Modelling conventions:
* `numpy` float arrays become `List ℚ`; sparse/dense matrices become
  `List (List ℚ)` (row-major).  All claims settled here are structural or
  exact-arithmetic properties, for which ℚ is a faithful carrier.
* Python instance attributes become fields of an explicit state record; a
  method that mutates attributes returns the new record alongside its result.
* The external sparse linear solver (`scipy.sparse.linalg.spsolve` applied to
  a finite-difference Jacobian) is an oracle parameter, as the spec treats the
  linear-algebra backend as an external black box.
* A Python `raise` (or a failing `assert`) is modelled by the `Except` monad.
-/

namespace Cardillo

abbrev Vec := List ℚ
abbrev Mat := List (List ℚ)

/-- Dot product of two rationals lists (numpy `row @ x` for one row). -/
def dot (a b : Vec) : ℚ := (List.zipWith (fun x y => x * y) a b).sum

/-- Matrix-vector product `A @ x` (row-major). -/
def matVec (A : Mat) (x : Vec) : Vec := A.map (fun row => dot row x)

/-- Elementwise sum `a + b` of numpy arrays. -/
def vadd (a b : Vec) : Vec := List.zipWith (fun x y => x + y) a b

/-- Elementwise difference `a - b` of numpy arrays. -/
def vsub (a b : Vec) : Vec := List.zipWith (fun x y => x - y) a b

/-- Elementwise product `a * b` of numpy arrays. -/
def vmul (a b : Vec) : Vec := List.zipWith (fun x y => x * y) a b

/-- Scalar multiple `c * a` of a numpy array. -/
def smul (c : ℚ) (a : Vec) : Vec := a.map (fun x => c * x)

/-- Scalar division `a / c` of a numpy array. -/
def sdiv (a : Vec) (c : ℚ) : Vec := a.map (fun x => x / c)

/-- `np.zeros(n)`. -/
def zeros (n : ℕ) : Vec := List.replicate n 0

/-- Default `error_function = lambda x: np.max(np.abs(x))`
(`genAlphaDAE.py`, constructor default). -/
def maxAbsError (v : Vec) : ℚ := (v.map (fun a => |a|)).foldr max 0

/-- Slice assignment `x[start : start + v.length] = v` on a numpy array
(numpy requires the value to have exactly the slice's length; the callers
below always satisfy this). -/
def sliceAssign (x : Vec) (start : ℕ) (v : Vec) : Vec :=
  x.take start ++ v ++ x.drop (start + v.length)

/-- Three-list `zipWith`, used to express numpy's paired boolean
scatter/gathers `R[off + where(m)] = a[m]; R[off + where(~m)] = b[~m]`,
which assign, for every index `i`, the value `if m[i] then a[i] else b[i]`
to position `off + i`. -/
def zipWith3 (f : Bool → ℚ → ℚ → ℚ) : List Bool → Vec → Vec → Vec
  | m :: ms, a :: as, b :: bs => f m a b :: zipWith3 f ms as bs
  | _, _, _ => []

/-!  ## The model interface (external collaborator, §6 of the spec)

All physics callbacks consumed by the integrators.  Dimensions `nq, nu,
nla_g, nla_gamma, nla_N` and the initial data are part of the interface.
-/

structure Model where
  nq : ℕ
  nu : ℕ
  nla_g : ℕ
  nla_gamma : ℕ
  nla_N : ℕ
  t0 : ℚ
  q0 : Vec
  u0 : Vec
  la_g0 : Vec
  la_gamma0 : Vec
  la_N0 : Vec
  M : ℚ → Vec → Mat
  h : ℚ → Vec → Vec → Vec
  q_dot : ℚ → Vec → Vec → Vec
  g : ℚ → Vec → Vec
  g_dot : ℚ → Vec → Vec → Vec
  g_ddot : ℚ → Vec → Vec → Vec → Vec
  gamma : ℚ → Vec → Vec → Vec
  gamma_dot : ℚ → Vec → Vec → Vec → Vec
  zeta_g : ℚ → Vec → Vec → Vec
  zeta_gamma : ℚ → Vec → Vec → Vec
  W_g : ℚ → Vec → Mat
  W_gamma : ℚ → Vec → Mat
  W_N : ℚ → Vec → Mat
  g_N : ℚ → Vec → Vec
  xi_N : ℚ → Vec → Vec → Vec → Vec
  g_N_ddot : ℚ → Vec → Vec → Vec → Vec
  prox_r_N : Vec
  step_callback : ℚ → Vec → Vec → Vec × Vec

/-!  ## Solver state of `GenAlphaFirstOrderVelocityGGLNormalContacts`

One field per instance attribute assigned by the Python class.  The
constructor stores `t1` through the conditional expression
`t1 if t1 > t0 else ValueError(...)`, so the attribute may hold either a
number or an un-raised exception object; we model it as a sum.  The index-set
attributes `Ai1, Bi1, Ci1` and `nR_smooth` are only created by the first call
of `R` (the constructor leaves them unset); `nR_smooth` is therefore an
`Option`, and the mask fields carry whatever value the last `R` call wrote.
-/

structure SolverState where
  DAE_index : ℤ
  t0 : ℚ
  t1Field : ℚ ⊕ String
  dt : ℚ
  rho_inf : ℚ
  alpha_m : ℚ
  alpha_f : ℚ
  gamma : ℚ
  beta : ℚ
  tol : ℚ
  max_iter : ℕ
  nq : ℕ
  nu : ℕ
  nla_g : ℕ
  nla_gamma : ℕ
  nla_N : ℕ
  tk : ℚ
  qk : Vec
  uk : Vec
  kappa_gk : Vec
  la_gk : Vec
  La_gk : Vec
  la_gammak : Vec
  kappa_Nk : Vec
  la_Nk : Vec
  La_Nk : Vec
  la_gbark : Vec
  la_Nbark : Vec
  q_dotk : Vec
  u_dotk : Vec
  yk : Vec
  y_dotk : Vec
  vk : Vec
  xk : Vec
  Ai1 : List Bool
  Bi1 : List Bool
  Ci1 : List Bool
  nR_smooth : Option ℕ
  deriving DecidableEq

/-!  ## Generalized-alpha parameter derivations (per class) -/

namespace GenAlphaFirstOrderVelocityGGLNormalContacts

/-- `self.alpha_m = (2.0 * rho_inf - 1.0) / (rho_inf + 1.0)` (line 60). -/
def alpha_m (rho_inf : ℚ) : ℚ := (2 * rho_inf - 1) / (rho_inf + 1)

/-- `self.alpha_f = rho_inf / (rho_inf + 1.0)` (line 61). -/
def alpha_f (rho_inf : ℚ) : ℚ := rho_inf / (rho_inf + 1)

/-- `self.gamma = 0.5 + self.alpha_f - self.alpha_m` (line 62). -/
def gammaParam (rho_inf : ℚ) : ℚ := 1/2 + alpha_f rho_inf - alpha_m rho_inf

/-- `self.beta = 0.25 * ((self.gamma + 0.5) ** 2)` (line 63). -/
def betaParam (rho_inf : ℚ) : ℚ := 1/4 * ((gammaParam rho_inf + 1/2) ^ 2)

end GenAlphaFirstOrderVelocityGGLNormalContacts

namespace GenAlphaFirstOrderVelocityGGL

/-- `self.alpha_m = (3.0 * rho_inf - 1.0) / (2.0 * (rho_inf + 1.0))`
(line 641, Harsch2022). -/
def alpha_m (rho_inf : ℚ) : ℚ := (3 * rho_inf - 1) / (2 * (rho_inf + 1))

/-- `self.alpha_f = rho_inf / (rho_inf + 1.0)` (line 642). -/
def alpha_f (rho_inf : ℚ) : ℚ := rho_inf / (rho_inf + 1)

/-- `self.gamma = 0.5 + self.alpha_f - self.alpha_m` (line 651). -/
def gammaParam (rho_inf : ℚ) : ℚ := 1/2 + alpha_f rho_inf - alpha_m rho_inf

end GenAlphaFirstOrderVelocityGGL

namespace GenAlphaFirstOrderVelocity

/-- `self.alpha_m = (3.0 * rho_inf - 1.0) / (2.0 * (rho_inf + 1.0))`
(line 1097, Harsch2022). -/
def alpha_m (rho_inf : ℚ) : ℚ := (3 * rho_inf - 1) / (2 * (rho_inf + 1))

/-- `self.alpha_f = rho_inf / (rho_inf + 1.0)` (line 1098). -/
def alpha_f (rho_inf : ℚ) : ℚ := rho_inf / (rho_inf + 1)

/-- `self.gamma = 0.5 + self.alpha_f - self.alpha_m` (line 1099). -/
def gammaParam (rho_inf : ℚ) : ℚ := 1/2 + alpha_f rho_inf - alpha_m rho_inf

end GenAlphaFirstOrderVelocity

/-!  ## Generalized-alpha update rule -/

/-- The alpha-blend `(alpha_f * zk + (1 - alpha_f) * zk1 - alpha_m * zbark)
/ (1 - alpha_m)`, the common subexpression of the auxiliary-velocity update
(line 180) and the Lagrange-multiplier filter (line 328). -/
def alphaBlend (alpha_f alpha_m : ℚ) (zk zbark zk1 : Vec) : Vec :=
  sdiv (vsub (vadd (smul alpha_f zk) (smul (1 - alpha_f) zk1)) (smul alpha_m zbark))
    (1 - alpha_m)

/-- The single-integral approximation `zk + dt * ((1 - gamma) * wk + gamma * wk1)`
(line 185 and line 333). -/
def gammaIntegral (dt gamma : ℚ) (zk wk wk1 : Vec) : Vec :=
  vadd zk (smul dt (vadd (smul (1 - gamma) wk) (smul gamma wk1)))

/-- Auxiliary velocity `vk1` computed by `update` (lines 180-182). -/
def vk1_of (s : SolverState) (y_dotk1 : Vec) : Vec :=
  alphaBlend s.alpha_f s.alpha_m s.y_dotk s.vk y_dotk1

/-- Trial state `yk1` computed by `update` (line 185). -/
def yk1_of (s : SolverState) (y_dotk1 : Vec) : Vec :=
  gammaIntegral s.dt s.gamma s.yk s.vk (vk1_of s y_dotk1)

/-- `GenAlphaFirstOrderVelocityGGLNormalContacts.update` (lines 168-198).
Returns `(qk1, uk1, q_dotk1, u_dotk1)` and the (possibly mutated) state.
With `store=True` the method commits `vk`, `yk`, `y_dotk` *and additionally*
`self.uk = vk1[nq : nq + nu]` (line 191). -/
def update (s : SolverState) (y_dotk1 : Vec) (store : Bool) :
    Vec × Vec × Vec × Vec × SolverState :=
  let vk1 := vk1_of s y_dotk1
  let yk1 := yk1_of s y_dotk1
  let s' :=
    if store then
      { s with vk := vk1, yk := yk1, y_dotk := y_dotk1,
               uk := (vk1.drop s.nq).take s.nu }
    else s
  (yk1.take s.nq, (yk1.drop s.nq).take s.nu,
   y_dotk1.take s.nq, (y_dotk1.drop s.nq).take s.nu, s')

/-!  ## State packing (lines 200-282) -/

/-- The unknown-vector layout
`[q_dot, u_dot, kappa_g, La_g, la_g, la_gamma, kappa_N, La_N, la_N]`. -/
structure Unknowns where
  q_dot : Vec
  u_dot : Vec
  kappa_g : Vec
  La_g : Vec
  la_g : Vec
  la_gamma : Vec
  kappa_N : Vec
  La_N : Vec
  la_N : Vec
  deriving DecidableEq

/-- `pack` (lines 200-241): nine consecutive slice assignments into
`np.zeros(nx)` with `nx = nq + nu + 3*nla_g + nla_gamma + 3*nla_N`. -/
def pack (s : SolverState) (q_dot u_dot kappa_g La_g la_g la_gamma kappa_N La_N la_N : Vec) :
    Vec :=
  let nq := s.nq
  let nu := s.nu
  let nla_g := s.nla_g
  let nla_gamma := s.nla_gamma
  let nla_N := s.nla_N
  let nx := nq + nu + 3 * nla_g + nla_gamma + 3 * nla_N
  let x := zeros nx
  let x := sliceAssign x 0 q_dot
  let x := sliceAssign x nq u_dot
  let x := sliceAssign x (nq + nu) kappa_g
  let x := sliceAssign x (nq + nu + nla_g) La_g
  let x := sliceAssign x (nq + nu + 2 * nla_g) la_g
  let x := sliceAssign x (nq + nu + 3 * nla_g) la_gamma
  let x := sliceAssign x (nq + nu + 3 * nla_g + nla_gamma) kappa_N
  let x := sliceAssign x (nq + nu + 3 * nla_g + nla_gamma + nla_N) La_N
  let x := sliceAssign x (nq + nu + 3 * nla_g + nla_gamma + 2 * nla_N) la_N
  x

/-- `unpack` (lines 243-282): reads the nine slices back (`.copy()` is pure
and drops out of the functional model). -/
def unpack (s : SolverState) (x : Vec) : Unknowns :=
  let nq := s.nq
  let nu := s.nu
  let nla_g := s.nla_g
  let nla_gamma := s.nla_gamma
  let nla_N := s.nla_N
  { q_dot := x.take nq
    u_dot := (x.drop nq).take nu
    kappa_g := (x.drop (nq + nu)).take nla_g
    La_g := (x.drop (nq + nu + nla_g)).take nla_g
    la_g := (x.drop (nq + nu + 2 * nla_g)).take nla_g
    la_gamma := (x.drop (nq + nu + 3 * nla_g)).take nla_gamma
    kappa_N := (x.drop (nq + nu + 3 * nla_g + nla_gamma)).take nla_N
    La_N := (x.drop (nq + nu + 3 * nla_g + nla_gamma + nla_N)).take nla_N
    la_N := (x.drop (nq + nu + 3 * nla_g + nla_gamma + 2 * nla_N)).take nla_N }

/-!  ## Residual assembly of `GenAlphaFirstOrderVelocityGGLNormalContacts.R`
(lines 289-448)

`R` assigns into disjoint exact-length slices of `np.zeros(self.nx)`; the
resulting vector is the concatenation of the block vectors below (numpy would
raise if a model output did not fit its slice, which is the well-formedness
hypothesis of the theorems).  The method reads `self.uk`, the filter history
`self.la_Nk`/`self.la_Nbark` and (when `update_index_set` is false) the stored
masks; it writes only the masks (when updating) and `self.nR_smooth`.
-/

/-- `y_dotk1 = xk1[: self.ny]` (line 302) with `ny = nq + nu`. -/
def y_dot_of (s : SolverState) (xk1 : Vec) : Vec := xk1.take (s.nq + s.nu)

/-- Trial position `qk1` from `self.update(y_dotk1, store=False)` (line 325). -/
def qk1_of (s : SolverState) (xk1 : Vec) : Vec :=
  (yk1_of s (y_dot_of s xk1)).take s.nq

/-- Trial velocity `uk1` from `self.update(y_dotk1, store=False)` (line 325). -/
def uk1_of (s : SolverState) (xk1 : Vec) : Vec :=
  ((yk1_of s (y_dot_of s xk1)).drop s.nq).take s.nu

/-- Trial `q_dotk1` slice (line 325 via lines 196-197). -/
def q_dotk1_of (s : SolverState) (xk1 : Vec) : Vec := (y_dot_of s xk1).take s.nq

/-- Trial `u_dotk1` slice (line 325 via lines 196-197). -/
def u_dotk1_of (s : SolverState) (xk1 : Vec) : Vec :=
  ((y_dot_of s xk1).drop s.nq).take s.nu

/-- Filtered multiplier `la_Nbark1` (lines 328-332). -/
def la_Nbark1_of (s : SolverState) (la_Nk1 : Vec) : Vec :=
  alphaBlend s.alpha_f s.alpha_m s.la_Nk s.la_Nbark la_Nk1

/-- Accumulated impulse
`P_Nk1 = La_Nk1 + dt * ((1 - gamma) * la_Nbark + gamma * la_Nbark1)`
(lines 333-335). -/
def P_Nk1_of (s : SolverState) (La_Nk1 la_Nk1 : Vec) : Vec :=
  gammaIntegral s.dt s.gamma La_Nk1 s.la_Nbark (la_Nbark1_of s la_Nk1)

/-- Position-stabilization term
`kappa_hatNk1 = kappa_Nk1 + dt**2 * ((0.5 - beta) * la_Nbark + beta * la_Nbark1)`
(lines 338-340). -/
def kappa_hatNk1_of (s : SolverState) (kappa_Nk1 la_Nk1 : Vec) : Vec :=
  vadd kappa_Nk1
    (smul (s.dt ^ 2)
      (vadd (smul (1/2 - s.beta) s.la_Nbark)
        (smul s.beta (la_Nbark1_of s la_Nk1))))

/-- Kinematic block `R[:nq]` (lines 361-366):
`q_dotk1 - q_dot(t,q,u) - W_g @ kappa_g - W_N @ kappa_N`. -/
def Rkin (m : Model) (s : SolverState) (tk1 : ℚ) (xk1 : Vec) : Vec :=
  vsub
    (vsub (vsub (q_dotk1_of s xk1) (m.q_dot tk1 (qk1_of s xk1) (uk1_of s xk1)))
      (matVec (m.W_g tk1 (qk1_of s xk1)) (unpack s xk1).kappa_g))
    (matVec (m.W_N tk1 (qk1_of s xk1)) (unpack s xk1).kappa_N)

/-- Dynamics block `R[nq : nq + nu]` (lines 369-375):
`M @ u_dot - h - W_g @ la_g - W_gamma @ la_gamma - W_N @ la_N`. -/
def Rdyn (m : Model) (s : SolverState) (tk1 : ℚ) (xk1 : Vec) : Vec :=
  vsub
    (vsub
      (vsub
        (vsub (matVec (m.M tk1 (qk1_of s xk1)) (u_dotk1_of s xk1))
          (m.h tk1 (qk1_of s xk1) (uk1_of s xk1)))
        (matVec (m.W_g tk1 (qk1_of s xk1)) (unpack s xk1).la_g))
      (matVec (m.W_gamma tk1 (qk1_of s xk1)) (unpack s xk1).la_gamma))
    (matVec (m.W_N tk1 (qk1_of s xk1)) (unpack s xk1).la_N)

/-- Contact kinematics at the trial point (lines 351-353). -/
def g_Nk1_of (m : Model) (s : SolverState) (tk1 : ℚ) (xk1 : Vec) : Vec :=
  m.g_N tk1 (qk1_of s xk1)

/-- `xi_Nk1 = model.xi_N(tk1, qk1, uk, uk1)` (line 352); note the first
velocity argument is the *stored* `self.uk`. -/
def xi_Nk1_of (m : Model) (s : SolverState) (tk1 : ℚ) (xk1 : Vec) : Vec :=
  m.xi_N tk1 (qk1_of s xk1) s.uk (uk1_of s xk1)

/-- `g_N_ddotk1 = model.g_N_ddot(tk1, qk1, uk1, u_dotk1)` (line 353). -/
def g_N_ddotk1_of (m : Model) (s : SolverState) (tk1 : ℚ) (xk1 : Vec) : Vec :=
  m.g_N_ddot tk1 (qk1_of s xk1) (uk1_of s xk1) (u_dotk1_of s xk1)

/-- Index set `Ai1 = prox_r_N * g_Nk1 - kappa_hatNk1 <= 0` (line 397),
elementwise over the contact indices. -/
def mask_A (m : Model) (s : SolverState) (tk1 : ℚ) (xk1 : Vec) : List Bool :=
  (vsub (vmul m.prox_r_N (g_Nk1_of m s tk1 xk1))
      (kappa_hatNk1_of s (unpack s xk1).kappa_N (unpack s xk1).la_N)).map
    (fun r => decide (r ≤ 0))

/-- Index set `Bi1 = Ai1 * (prox_r_N * xi_Nk1 - P_Nk1 <= 0)` (line 399);
numpy boolean multiplication is conjunction. -/
def mask_B (m : Model) (s : SolverState) (tk1 : ℚ) (xk1 : Vec) : List Bool :=
  List.zipWith (fun a c => a && c) (mask_A m s tk1 xk1)
    ((vsub (vmul m.prox_r_N (xi_Nk1_of m s tk1 xk1))
        (P_Nk1_of s (unpack s xk1).La_N (unpack s xk1).la_N)).map
      (fun r => decide (r ≤ 0)))

/-- Index set `Ci1 = Bi1 * (prox_r_N * g_N_ddotk1 - la_Nk1 <= 0)` (line 401). -/
def mask_C (m : Model) (s : SolverState) (tk1 : ℚ) (xk1 : Vec) : List Bool :=
  List.zipWith (fun b c => b && c) (mask_B m s tk1 xk1)
    ((vsub (vmul m.prox_r_N (g_N_ddotk1_of m s tk1 xk1))
        (unpack s xk1).la_N).map
      (fun r => decide (r ≤ 0)))

/-- `self.nR_smooth = nq + nu + 3 * nla_g + nla_gamma` (line 388). -/
def nR_smooth_val (s : SolverState) : ℕ := s.nq + s.nu + 3 * s.nla_g + s.nla_gamma

/-- The assembled residual vector for given masks `a, b, c` (the slices of
`np.zeros(nx)` filled in lines 358-421, in block order).  The three contact
blocks translate the paired boolean scatter/gathers of lines 403-421: with
`I_N = a`, `A_N = I_N * b`, `B_N = A_N * c`, row `i` of the first block is
`g_Nk1[i]` if `I_N[i]` else `kappa_hatNk1[i]`, and analogously for the other
two levels. -/
def R_flat (m : Model) (s : SolverState) (tk1 : ℚ) (xk1 : Vec)
    (a b c : List Bool) : Vec :=
  let ab := List.zipWith (fun x y => x && y) a b
  let abc := List.zipWith (fun x y => x && y) ab c
  let r1 := zipWith3 (fun mi gi ki => if mi then gi else ki) a
    (g_Nk1_of m s tk1 xk1)
    (kappa_hatNk1_of s (unpack s xk1).kappa_N (unpack s xk1).la_N)
  let r2 := zipWith3 (fun mi xi pi => if mi then xi else pi) ab
    (xi_Nk1_of m s tk1 xk1)
    (P_Nk1_of s (unpack s xk1).La_N (unpack s xk1).la_N)
  let r3 := zipWith3 (fun mi gi li => if mi then gi else li) abc
    (g_N_ddotk1_of m s tk1 xk1)
    (unpack s xk1).la_N
  Rkin m s tk1 xk1 ++ Rdyn m s tk1 xk1 ++
    m.g tk1 (qk1_of s xk1) ++
    m.g_dot tk1 (qk1_of s xk1) (uk1_of s xk1) ++
    m.g_ddot tk1 (qk1_of s xk1) (uk1_of s xk1) (u_dotk1_of s xk1) ++
    m.gamma tk1 (qk1_of s xk1) (uk1_of s xk1) ++
    r1 ++ r2 ++ r3

/-- `GenAlphaFirstOrderVelocityGGLNormalContacts.R` (lines 289-448).
Returns the residual vector and the post-call state.  State effects: the
masks are reassigned when `update_index_set` is true (lines 395-401) and
`nR_smooth` is reassigned on every call (line 388). -/
def R_residual (m : Model) (s : SolverState) (tk1 : ℚ) (xk1 : Vec)
    (update_index_set : Bool) : Vec × SolverState :=
  let a := if update_index_set then mask_A m s tk1 xk1 else s.Ai1
  let b := if update_index_set then mask_B m s tk1 xk1 else s.Bi1
  let c := if update_index_set then mask_C m s tk1 xk1 else s.Ci1
  (R_flat m s tk1 xk1 a b c,
   { s with Ai1 := a, Bi1 := b, Ci1 := c, nR_smooth := some (nR_smooth_val s) })

/-!  ## Newton iteration and time-stepping driver
(`step` lines 458-503, `solve` lines 505-590)

`step` first evaluates the public `R` (line 462).  If the initial error is
not below `tol`, the `while j < self.max_iter` loop is entered, whose first
action is the finite-difference Jacobian build (lines 470-474):
`approx_fprime(xk1, lambda x: self.__R(tk1, x, update_index_set=False),
method="2-point")`.  Finite differencing evaluates its function argument,
and the private `__R` (lines 450-451) dereferences
`self.__R_gen_analytic` — a method
`GenAlphaFirstOrderVelocityGGLNormalContacts` does not define (only a
commented-out remnant at line 288; the versions in the other classes are
name-mangled and unreachable).  Python therefore raises `AttributeError`
before the first Newton update; the sparse solve of line 492, the
re-evaluation of `R` at line 496 and the convergence bookkeeping of the
loop are unreachable.  Only with `max_iter = 0` does the loop body never
run, and the method then returns `converged=False` normally.  Exceptions
are modelled by `Except`. -/

/-- The trajectory record built by `solve` and returned as `Solution`
(lines 505-590). -/
structure Solution where
  t : List ℚ
  q : List Vec
  u : List Vec
  q_dot : List Vec
  u_dot : List Vec
  kappa_g : List Vec
  La_g : List Vec
  la_g : List Vec
  la_gamma : List Vec
  kappa_N : List Vec
  La_N : List Vec
  la_N : List Vec
  deriving DecidableEq

/-- The fatal errors a `solve` run can raise: the Newton convergence failure
`RuntimeError` of lines 546-549 (carrying the reported iteration count and
last error value), the `AttributeError` raised by the Jacobian build of
`step` through the call of the missing `__R_gen_analytic` (carrying only
the mangled attribute name), and the `TypeError` that
`np.arange(t0, self.t1, dt)` raises when `self.t1` holds the un-raised
`ValueError` object instead of a number (line 521). -/
inductive SolveError where
  | convergenceError (iters : ℕ) (err : ℚ)
  | attributeError (name : String)
  | typeError
  deriving DecidableEq

/-- `GenAlphaFirstOrderVelocityGGLNormalContacts.step` (lines 458-503):
initial residual/error from the public `R`; if not converged and
`max_iter > 0`, the first Jacobian build raises `AttributeError` for the
missing `__R_gen_analytic` (see the section comment above); with
`max_iter = 0` the loop never runs and `(converged=False, 0, error, xk1)`
is returned. -/
def step (m : Model) (errf : Vec → ℚ) (s : SolverState) (tk1 : ℚ)
    (xk1 : Vec) : Except SolveError ((Bool × ℕ × ℚ × Vec) × SolverState) :=
  let p := R_residual m s tk1 xk1 true
  let e := errf p.1
  if e < s.tol then .ok ((true, 0, e, xk1), p.2)
  else if 0 < s.max_iter then
    .error (.attributeError
      "_GenAlphaFirstOrderVelocityGGLNormalContacts__R_gen_analytic")
  else .ok ((false, 0, e, xk1), p.2)

/-- `len(np.arange(t0, t1, dt))` for `dt > 0`: the number of outer steps the
driver performs (`⌈(t1 - t0)/dt⌉`, clamped at zero). -/
def numSteps (t0 t1 dt : ℚ) : ℕ := (Int.toNat ⌈(t1 - t0) / dt⌉)

/-- One pass of the driver's `for k, _ in enumerate(pbar)` body
(lines 522-574), iterated `fuel` times; `acc` carries the stored solution
fields. -/
def solveLoop (m : Model) (errf : Vec → ℚ) :
    ℕ → SolverState → Solution → Except SolveError Solution
  | 0, _s, acc => .ok acc
  | Nat.succ fuel, s, acc =>
      let tk1 := s.tk + s.dt
      match step m errf s tk1 s.xk with
      | .error err => .error err
      | .ok r =>
          let conv := r.1.1
          let n_iter := r.1.2.1
          let err := r.1.2.2.1
          let xk1 := r.1.2.2.2
          let s1 := r.2
          let U := unpack s1 xk1
          if conv then
            let upd := update s1 (y_dot_of s1 xk1) true
            let cb := m.step_callback tk1 upd.1 upd.2.1
            let acc1 : Solution :=
              { t := acc.t ++ [tk1], q := acc.q ++ [cb.1], u := acc.u ++ [cb.2],
                q_dot := acc.q_dot ++ [upd.2.2.1],
                u_dot := acc.u_dot ++ [upd.2.2.2.1],
                kappa_g := acc.kappa_g ++ [U.kappa_g],
                La_g := acc.La_g ++ [U.La_g],
                la_g := acc.la_g ++ [U.la_g],
                la_gamma := acc.la_gamma ++ [U.la_gamma],
                kappa_N := acc.kappa_N ++ [U.kappa_N],
                La_N := acc.La_N ++ [U.La_N],
                la_N := acc.la_N ++ [U.la_N] }
            solveLoop m errf fuel { upd.2.2.2.2 with tk := tk1, xk := xk1 } acc1
          else .error (.convergenceError n_iter err)

/-- `GenAlphaFirstOrderVelocityGGLNormalContacts.solve` (lines 505-590). -/
def solve (m : Model) (errf : Vec → ℚ) (s : SolverState) :
    Except SolveError Solution :=
  match s.t1Field with
  | Sum.inr _ => .error .typeError
  | Sum.inl t1 =>
      let acc0 : Solution :=
        { t := [s.tk], q := [s.qk], u := [s.uk],
          q_dot := [s.q_dotk], u_dot := [s.u_dotk],
          kappa_g := [s.kappa_gk], La_g := [s.La_gk], la_g := [s.la_gk],
          la_gamma := [s.la_gammak], kappa_N := [s.kappa_Nk],
          La_N := [s.La_Nk], la_N := [s.la_Nk] }
      solveLoop m errf (numSteps s.t0 t1 s.dt) s acc0

/-!  ## Constructor of `GenAlphaFirstOrderVelocityGGLNormalContacts`
(lines 26-166)

`np.allclose` against a zero vector is modelled as exact equality (exact
arithmetic); the consistent-acceleration solve `spsolve(M0, ...)` is the
linear-solver oracle `ls0`.  The constructor leaves `Ai1/Bi1/Ci1` and
`nR_smooth` unset; they are first assigned inside `R` before any read
(`step` always starts with `update_index_set=True`), so we initialize the
masks to `[]` and `nR_smooth` to `none`. -/

namespace GenAlphaFirstOrderVelocityGGLNormalContacts

/-- Consistent initial acceleration `spsolve(M0, h0 + W_g0 @ la_g0 +
W_gamma0 @ la_gamma0 + W_N0 @ la_N0)` (lines 107-109), with the sparse
solve as the oracle `ls0`. -/
def consistent_u_dot0 (m : Model) (ls0 : Mat → Vec → Vec) : Vec :=
  ls0 (m.M m.t0 m.q0)
    (vadd (m.h m.t0 m.q0 m.u0)
      (vadd (matVec (m.W_g m.t0 m.q0) m.la_g0)
        (vadd (matVec (m.W_gamma m.t0 m.q0) m.la_gamma0)
          (matVec (m.W_N m.t0 m.q0) m.la_N0))))

def init (m : Model) (ls0 : Mat → Vec → Vec) (t1 dt rho_inf tol : ℚ)
    (max_iter : ℕ) (DAE_index : ℤ) : Except String SolverState :=
  if ¬(1 ≤ DAE_index ∧ DAE_index ≤ 2) then
    .error "DAE_index hast to be in [1, 2]!"
  else
    let t0 := m.t0
    let t1f : ℚ ⊕ String :=
      if t0 < t1 then Sum.inl t1
      else Sum.inr "t1 must be larger than initial time t0."
    let q_dotk := m.q_dot t0 m.q0 m.u0
    let u_dotk := consistent_u_dot0 m ls0
    if m.g t0 m.q0 ≠ zeros m.nla_g then
      .error "Initial conditions do not fulfill g0!"
    else if m.g_dot t0 m.q0 m.u0 ≠ zeros m.nla_g then
      .error "Initial conditions do not fulfill g_dot0!"
    else if m.g_ddot t0 m.q0 m.u0 u_dotk ≠ zeros m.nla_g then
      .error "Initial conditions do not fulfill g_ddot0!"
    else if m.gamma t0 m.q0 m.u0 ≠ zeros m.nla_gamma then
      .error "Initial conditions do not fulfill gamma0!"
    else if m.gamma_dot t0 m.q0 m.u0 u_dotk ≠ zeros m.nla_gamma then
      .error "Initial conditions do not fulfill gamma_dot0!"
    else if ¬((m.g_N t0 m.q0).all (fun a => decide (0 ≤ a))) then
      .error "Initial conditions do not fulfill g_N0 >= 0!"
    else
      let sBase : SolverState :=
        { DAE_index := DAE_index, t0 := t0, t1Field := t1f, dt := dt,
          rho_inf := rho_inf, alpha_m := alpha_m rho_inf,
          alpha_f := alpha_f rho_inf, gamma := gammaParam rho_inf,
          beta := betaParam rho_inf, tol := tol, max_iter := max_iter,
          nq := m.nq, nu := m.nu, nla_g := m.nla_g, nla_gamma := m.nla_gamma,
          nla_N := m.nla_N, tk := t0, qk := m.q0, uk := m.u0,
          kappa_gk := zeros m.la_g0.length, la_gk := m.la_g0,
          La_gk := zeros m.la_g0.length, la_gammak := m.la_gamma0,
          kappa_Nk := zeros m.la_N0.length, la_Nk := m.la_N0,
          La_Nk := zeros m.la_N0.length, la_gbark := m.la_N0,
          la_Nbark := m.la_N0, q_dotk := q_dotk, u_dotk := u_dotk,
          yk := m.q0 ++ m.u0, y_dotk := q_dotk ++ u_dotk,
          vk := q_dotk ++ u_dotk, xk := [],
          Ai1 := [], Bi1 := [], Ci1 := [], nR_smooth := none }
      .ok { sBase with
              xk := pack sBase q_dotk u_dotk (zeros m.la_g0.length)
                (zeros m.la_g0.length) m.la_g0 m.la_gamma0
                (zeros m.la_N0.length) (zeros m.la_N0.length) m.la_N0 }

end GenAlphaFirstOrderVelocityGGLNormalContacts

/-!  ## `GenAlphaFirstOrderVelocityGGL` (lines 593-1049) -/

/-- `A.T` for a row-major matrix. -/
def matT (A : Mat) : Mat := A.transpose

/-- `-A`. -/
def matNeg (A : Mat) : Mat := A.map (fun row => row.map (fun a => -a))

/-- Zero block of `bmat`. -/
def zeroMat (r c : ℕ) : Mat := List.replicate r (zeros c)

/-- Horizontal block concatenation (one block row of `bmat`). -/
def hcat (A B : Mat) : Mat := List.zipWith (fun r1 r2 => r1 ++ r2) A B

/-- Instance attributes assigned by the `GenAlphaFirstOrderVelocityGGL`
constructor (lines 606-789). -/
structure GGLState where
  t0 : ℚ
  t1Field : ℚ ⊕ String
  dt : ℚ
  rho_inf : ℚ
  alpha_m : ℚ
  alpha_f : ℚ
  gamma : ℚ
  gamma_prime : ℚ
  tol : ℚ
  max_iter : ℕ
  nq : ℕ
  nu : ℕ
  nla_g : ℕ
  nla_gamma : ℕ
  tk : ℚ
  qk : Vec
  uk : Vec
  la_gk : Vec
  la_gammak : Vec
  mu_gk : Vec
  q_dotk : Vec
  u_dotk : Vec
  yk : Vec
  y_dotk : Vec
  vk : Vec
  xk : Vec
  use_preconditioning : Bool
  deriving DecidableEq

namespace GenAlphaFirstOrderVelocityGGL

/-- `GenAlphaFirstOrderVelocityGGL.update` (lines 791-823): identical alpha
recurrence, input is the full unknown vector `xk1` whose first `ny` entries
are `y_dotk1`; with `store=True` it commits exactly `vk`, `yk`, `y_dotk`. -/
def update (s : GGLState) (xk1 : Vec) (store : Bool) :
    Vec × Vec × Vec × Vec × GGLState :=
  let y_dotk1 := xk1.take (s.nq + s.nu)
  let vk1 := alphaBlend s.alpha_f s.alpha_m s.y_dotk s.vk y_dotk1
  let yk1 := gammaIntegral s.dt s.gamma s.yk s.vk vk1
  let s' :=
    if store then { s with vk := vk1, yk := yk1, y_dotk := y_dotk1 } else s
  (yk1.take s.nq, (yk1.drop s.nq).take s.nu,
   y_dotk1.take s.nq, (y_dotk1.drop s.nq).take s.nu, s')

/-- Solution of the saddle-point system for the consistent initial
accelerations and multipliers (lines 687-698): `bmat([[M0, -W_g0,
-W_gamma0], [W_g0.T, None, None], [W_gamma0.T, None, None]])` against
`[h0, -zeta_g0, -zeta_gamma0]` through the linear-solver oracle. -/
def initialAccSol (m : Model) (ls0 : Mat → Vec → Vec) : Vec :=
  let M0 := m.M m.t0 m.q0
  let W_g0 := m.W_g m.t0 m.q0
  let W_gamma0 := m.W_gamma m.t0 m.q0
  let A := hcat (hcat M0 (matNeg W_g0)) (matNeg W_gamma0) ++
    hcat (hcat (matT W_g0) (zeroMat m.nla_g m.nla_g)) (zeroMat m.nla_g m.nla_gamma) ++
    hcat (hcat (matT W_gamma0) (zeroMat m.nla_gamma m.nla_g))
      (zeroMat m.nla_gamma m.nla_gamma)
  let b := m.h m.t0 m.q0 m.u0 ++ smul (-1) (m.zeta_g m.t0 m.q0 m.u0) ++
    smul (-1) (m.zeta_gamma m.t0 m.q0 m.u0)
  ls0 A b

/-- Constructor of `GenAlphaFirstOrderVelocityGGL` (lines 606-789). -/
def init (m : Model) (ls0 : Mat → Vec → Vec) (t1 dt rho_inf tol : ℚ)
    (max_iter : ℕ) : Except String GGLState :=
  let t0 := m.t0
  let t1f : ℚ ⊕ String :=
    if t0 < t1 then Sum.inl t1
    else Sum.inr "t1 must be larger than initial time t0."
  let q_dotk := m.q_dot t0 m.q0 m.u0
  let sol := initialAccSol m ls0
  let u_dotk := sol.take m.nu
  let la_gk := (sol.drop m.nu).take m.nla_g
  let la_gammak := sol.drop (m.nu + m.nla_g)
  if m.g t0 m.q0 ≠ zeros m.nla_g then
    .error "Initial conditions do not fulfill g0!"
  else if m.g_dot t0 m.q0 m.u0 ≠ zeros m.nla_g then
    .error "Initial conditions do not fulfill g_dot0!"
  else if m.g_ddot t0 m.q0 m.u0 u_dotk ≠ zeros m.nla_g then
    .error "Initial conditions do not fulfill g_ddot0!"
  else if m.gamma t0 m.q0 m.u0 ≠ zeros m.nla_gamma then
    .error "Initial conditions do not fulfill gamma0!"
  else if m.gamma_dot t0 m.q0 m.u0 u_dotk ≠ zeros m.nla_gamma then
    .error "Initial conditions do not fulfill gamma_dot0!"
  else
    .ok { t0 := t0, t1Field := t1f, dt := dt, rho_inf := rho_inf,
          alpha_m := alpha_m rho_inf, alpha_f := alpha_f rho_inf,
          gamma := gammaParam rho_inf,
          gamma_prime := dt * gammaParam rho_inf * (1 - alpha_f rho_inf) /
            (1 - alpha_m rho_inf),
          tol := tol, max_iter := max_iter, nq := m.nq, nu := m.nu,
          nla_g := m.nla_g, nla_gamma := m.nla_gamma, tk := t0, qk := m.q0,
          uk := m.u0, la_gk := la_gk, la_gammak := la_gammak,
          mu_gk := zeros m.nla_g, q_dotk := q_dotk, u_dotk := u_dotk,
          yk := m.q0 ++ m.u0, y_dotk := q_dotk ++ u_dotk,
          vk := q_dotk ++ u_dotk,
          xk := q_dotk ++ u_dotk ++ la_gk ++ la_gammak ++ zeros m.nla_g,
          use_preconditioning := false }

end GenAlphaFirstOrderVelocityGGL

/-!  ## A concrete instance for witnesses

A one-coordinate point mass with one unilateral contact
(`nq = nu = nla_N = 1`, no bilateral constraints), in the spirit of
`examples/bouncing_ball.py`: mass matrix `[[1]]`, constant force `[-1]`,
`q̇ = u`, gap `g_N = q`. -/

def testModel : Model :=
  { nq := 1, nu := 1, nla_g := 0, nla_gamma := 0, nla_N := 1,
    t0 := 0, q0 := [1], u0 := [0], la_g0 := [], la_gamma0 := [], la_N0 := [0],
    M := fun _ _ => [[1]],
    h := fun _ _ _ => [-1],
    q_dot := fun _ _ u => u,
    g := fun _ _ => [],
    g_dot := fun _ _ _ => [],
    g_ddot := fun _ _ _ _ => [],
    gamma := fun _ _ _ => [],
    gamma_dot := fun _ _ _ _ => [],
    zeta_g := fun _ _ _ => [],
    zeta_gamma := fun _ _ _ => [],
    W_g := fun _ _ => [[]],
    W_gamma := fun _ _ => [[]],
    W_N := fun _ _ => [[1]],
    g_N := fun _ q => q,
    xi_N := fun _ _ _ uk1 => uk1,
    g_N_ddot := fun _ _ _ u_dot => u_dot,
    prox_r_N := [1],
    step_callback := fun _ q u => (q, u) }

/-- A solver state for `testModel` as it stands before the first step
(`rho_inf = 1`, `dt = 1`, masks still unset by `R`). -/
def testState : SolverState :=
  { DAE_index := 2, t0 := 0, t1Field := Sum.inl 1, dt := 1, rho_inf := 1,
    alpha_m := 1/2, alpha_f := 1/2, gamma := 1/2, beta := 1/4,
    tol := 1/1000000, max_iter := 1,
    nq := 1, nu := 1, nla_g := 0, nla_gamma := 0, nla_N := 1,
    tk := 0, qk := [1], uk := [0],
    kappa_gk := [], la_gk := [], La_gk := [], la_gammak := [],
    kappa_Nk := [0], la_Nk := [0], La_Nk := [0],
    la_gbark := [0], la_Nbark := [0],
    q_dotk := [0], u_dotk := [-1],
    yk := [1, 0], y_dotk := [0, 0], vk := [0, 0],
    xk := [0, 0, 0, 0, 0],
    Ai1 := [], Bi1 := [], Ci1 := [], nR_smooth := none }

/-- Linear-solver oracle for the constructors' consistent-initial-value
solves. -/
def testLS0 : Mat → Vec → Vec := fun _ _ => [0]

/-- A `GenAlphaFirstOrderVelocityGGL` state over a one-coordinate model
with no bilateral constraints, for witnesses. -/
def testGGLState : GGLState :=
  { t0 := 0, t1Field := Sum.inl 1, dt := 1, rho_inf := 1,
    alpha_m := 1/2, alpha_f := 1/2, gamma := 1/2, gamma_prime := 1,
    tol := 1/1000000, max_iter := 40,
    nq := 1, nu := 1, nla_g := 0, nla_gamma := 0,
    tk := 0, qk := [1], uk := [0], la_gk := [], la_gammak := [], mu_gk := [],
    q_dotk := [0], u_dotk := [-1],
    yk := [1, 0], y_dotk := [0, 0], vk := [0, 0],
    xk := [0, 0], use_preconditioning := false }

/-!  ## Elementwise access lemmas for the vector primitives -/

theorem getElem?_zipWith_some {α β γ : Type} (f : α → β → γ) :
    ∀ (a : List α) (b : List β) (i : ℕ) (x : α) (y : β),
      a[i]? = some x → b[i]? = some y →
      (List.zipWith f a b)[i]? = some (f x y) := by
  intro a
  induction a with
  | nil => intro b i x y hx; simp at hx
  | cons hd tl ih =>
      intro b i x y hx hy
      cases b with
      | nil => simp at hy
      | cons hb tb =>
          cases i with
          | zero => simp_all
          | succ j => simpa using ih tb j x y (by simpa using hx) (by simpa using hy)

theorem getElem?_zipWith_eq_some_iff {α β γ : Type} (f : α → β → γ) :
    ∀ (a : List α) (b : List β) (i : ℕ) (z : γ),
      (List.zipWith f a b)[i]? = some z ↔
        ∃ x y, a[i]? = some x ∧ b[i]? = some y ∧ z = f x y := by
  intro a
  induction a with
  | nil => intro b i z; simp
  | cons hd tl ih =>
      intro b i z
      cases b with
      | nil => simp
      | cons hb tb =>
          cases i with
          | zero => simp [eq_comm]
          | succ j => simpa using ih tb j z

theorem getElem?_zipWith3_some (f : Bool → ℚ → ℚ → ℚ) :
    ∀ (ms : List Bool) (a b : Vec) (i : ℕ) (mi : Bool) (x y : ℚ),
      ms[i]? = some mi → a[i]? = some x → b[i]? = some y →
      (zipWith3 f ms a b)[i]? = some (f mi x y) := by
  intro ms
  induction ms with
  | nil => intro a b i mi x y hm; simp at hm
  | cons hd tl ih =>
      intro a b i mi x y hm hx hy
      cases a with
      | nil => simp at hx
      | cons ha ta =>
          cases b with
          | nil => simp at hy
          | cons hb tb =>
              cases i with
              | zero => simp_all [zipWith3]
              | succ j =>
                  simpa [zipWith3] using
                    ih ta tb j mi x y (by simpa using hm) (by simpa using hx)
                      (by simpa using hy)

theorem length_zipWith3 (f : Bool → ℚ → ℚ → ℚ) :
    ∀ (ms : List Bool) (a b : Vec),
      (zipWith3 f ms a b).length = min ms.length (min a.length b.length) := by
  intro ms
  induction ms with
  | nil => intro a b; simp [zipWith3]
  | cons hd tl ih =>
      intro a b
      cases a with
      | nil => simp [zipWith3]
      | cons ha ta =>
          cases b with
          | nil => simp [zipWith3]
          | cons hb tb => simp [zipWith3, ih]; omega

theorem getElem?_smul (c : ℚ) (a : Vec) (i : ℕ) (x : ℚ) (h : a[i]? = some x) :
    (smul c a)[i]? = some (c * x) := by
  simp [smul, List.getElem?_map, h]

theorem getElem?_sdiv (a : Vec) (c : ℚ) (i : ℕ) (x : ℚ) (h : a[i]? = some x) :
    (sdiv a c)[i]? = some (x / c) := by
  simp [sdiv, List.getElem?_map, h]

theorem getElem?_vadd (a b : Vec) (i : ℕ) (x y : ℚ)
    (hx : a[i]? = some x) (hy : b[i]? = some y) :
    (vadd a b)[i]? = some (x + y) :=
  getElem?_zipWith_some _ a b i x y hx hy

theorem getElem?_vsub (a b : Vec) (i : ℕ) (x y : ℚ)
    (hx : a[i]? = some x) (hy : b[i]? = some y) :
    (vsub a b)[i]? = some (x - y) :=
  getElem?_zipWith_some _ a b i x y hx hy

theorem getElem?_vmul (a b : Vec) (i : ℕ) (x y : ℚ)
    (hx : a[i]? = some x) (hy : b[i]? = some y) :
    (vmul a b)[i]? = some (x * y) :=
  getElem?_zipWith_some _ a b i x y hx hy

theorem getElem?_append_offset {α : Type} :
    ∀ (l1 l2 : List α) (i : ℕ), (l1 ++ l2)[l1.length + i]? = l2[i]? := by
  intro l1
  induction l1 with
  | nil => intro l2 i; simp
  | cons hd tl ih =>
      intro l2 i
      have : (hd :: tl).length + i = (tl.length + i) + 1 := by simp; omega
      simp only [this, List.cons_append, List.getElem?_cons_succ]
      exact ih l2 i

theorem getElem?_append_of_some {α : Type} :
    ∀ (l1 l2 : List α) (i : ℕ) (v : α), l1[i]? = some v → (l1 ++ l2)[i]? = some v := by
  intro l1
  induction l1 with
  | nil => intro l2 i v h; simp at h
  | cons hd tl ih =>
      intro l2 i v h
      cases i with
      | zero => simpa using h
      | succ j => simpa using ih l2 j v (by simpa using h)

/-!  ## Claim C5: generalized-alpha parameter derivation -/

/-- C5 counterexample: at `rho_inf = 0` (which lies in `[0, 1]`), the
`GenAlphaFirstOrderVelocityGGL` constructor derives `alpha_m = -1/2`
(Harsch2022 formula, line 641), not the claimed
`(2*0 - 1)/(0 + 1) = -1`. -/
theorem alpha_params_counterexample :
    GenAlphaFirstOrderVelocityGGL.alpha_m 0 ≠ (2 * (0 : ℚ) - 1) / ((0 : ℚ) + 1) := by
  with_unfolding_all decide

/-- C5 (amended): at solver construction, for every `rho_inf` in `[0, 1]`,
the contact solver `GenAlphaFirstOrderVelocityGGLNormalContacts` derives
`alpha_m = (2*rho_inf - 1)/(rho_inf + 1)`, while
`GenAlphaFirstOrderVelocityGGL` and `GenAlphaFirstOrderVelocity` derive
`alpha_m = (3*rho_inf - 1)/(2*(rho_inf + 1))`; all three derive
`alpha_f = rho_inf/(rho_inf + 1)` and `gamma = 1/2 + alpha_f - alpha_m`. -/
theorem alpha_params_derivation (rho_inf : ℚ)
    (_h0 : 0 ≤ rho_inf) (_h1 : rho_inf ≤ 1) :
    GenAlphaFirstOrderVelocityGGLNormalContacts.alpha_m rho_inf =
        (2 * rho_inf - 1) / (rho_inf + 1) ∧
    GenAlphaFirstOrderVelocityGGLNormalContacts.alpha_f rho_inf =
        rho_inf / (rho_inf + 1) ∧
    GenAlphaFirstOrderVelocityGGLNormalContacts.gammaParam rho_inf =
        1/2 + GenAlphaFirstOrderVelocityGGLNormalContacts.alpha_f rho_inf -
          GenAlphaFirstOrderVelocityGGLNormalContacts.alpha_m rho_inf ∧
    GenAlphaFirstOrderVelocityGGL.alpha_m rho_inf =
        (3 * rho_inf - 1) / (2 * (rho_inf + 1)) ∧
    GenAlphaFirstOrderVelocityGGL.alpha_f rho_inf = rho_inf / (rho_inf + 1) ∧
    GenAlphaFirstOrderVelocityGGL.gammaParam rho_inf =
        1/2 + GenAlphaFirstOrderVelocityGGL.alpha_f rho_inf -
          GenAlphaFirstOrderVelocityGGL.alpha_m rho_inf ∧
    GenAlphaFirstOrderVelocity.alpha_m rho_inf =
        (3 * rho_inf - 1) / (2 * (rho_inf + 1)) ∧
    GenAlphaFirstOrderVelocity.alpha_f rho_inf = rho_inf / (rho_inf + 1) ∧
    GenAlphaFirstOrderVelocity.gammaParam rho_inf =
        1/2 + GenAlphaFirstOrderVelocity.alpha_f rho_inf -
          GenAlphaFirstOrderVelocity.alpha_m rho_inf :=
  ⟨rfl, rfl, rfl, rfl, rfl, rfl, rfl, rfl, rfl⟩

/-- Witness for `alpha_params_derivation` at `rho_inf = 1/2`. -/
theorem alpha_params_derivation_witness :
    GenAlphaFirstOrderVelocityGGLNormalContacts.alpha_m (1/2) =
        (2 * (1/2 : ℚ) - 1) / ((1/2 : ℚ) + 1) ∧
    GenAlphaFirstOrderVelocityGGLNormalContacts.alpha_f (1/2) =
        (1/2 : ℚ) / ((1/2 : ℚ) + 1) ∧
    GenAlphaFirstOrderVelocityGGLNormalContacts.gammaParam (1/2) =
        1/2 + GenAlphaFirstOrderVelocityGGLNormalContacts.alpha_f (1/2) -
          GenAlphaFirstOrderVelocityGGLNormalContacts.alpha_m (1/2) ∧
    GenAlphaFirstOrderVelocityGGL.alpha_m (1/2) =
        (3 * (1/2 : ℚ) - 1) / (2 * ((1/2 : ℚ) + 1)) ∧
    GenAlphaFirstOrderVelocityGGL.alpha_f (1/2) = (1/2 : ℚ) / ((1/2 : ℚ) + 1) ∧
    GenAlphaFirstOrderVelocityGGL.gammaParam (1/2) =
        1/2 + GenAlphaFirstOrderVelocityGGL.alpha_f (1/2) -
          GenAlphaFirstOrderVelocityGGL.alpha_m (1/2) ∧
    GenAlphaFirstOrderVelocity.alpha_m (1/2) =
        (3 * (1/2 : ℚ) - 1) / (2 * ((1/2 : ℚ) + 1)) ∧
    GenAlphaFirstOrderVelocity.alpha_f (1/2) = (1/2 : ℚ) / ((1/2 : ℚ) + 1) ∧
    GenAlphaFirstOrderVelocity.gammaParam (1/2) =
        1/2 + GenAlphaFirstOrderVelocity.alpha_f (1/2) -
          GenAlphaFirstOrderVelocity.alpha_m (1/2) :=
  alpha_params_derivation (1/2) (by with_unfolding_all decide)
    (by with_unfolding_all decide)

/-!  ## Claim C4: frame effect of the update rule -/

set_option maxRecDepth 40000 in
/-- C4 counterexample: in the contact solver, `update(..., store=True)` at
the concrete state `testState` with trial derivative `[0, 2]` changes the
attribute `uk` as well (line 191 assigns `self.uk = vk1[nq : nq + nu]`),
contradicting the claim that exactly `vk`, `yk`, `y_dotk` are committed and
all other state is unchanged. -/
theorem update_store_frame_counterexample :
    ((update testState [0, 2] true).2.2.2.2).uk ≠ testState.uk := by
  with_unfolding_all decide

/-- C4 (amended): `update` with `store=false` mutates no solver state, in
the contact solver and in `GenAlphaFirstOrderVelocityGGL`.  With
`store=true` the GGL solver commits exactly `vk ← vk1`, `yk ← yk1`,
`y_dotk ← y_dotk1`; the contact solver commits those three *and
additionally* `uk ← vk1[nq : nq + nu]`.  All other fields are unchanged. -/
theorem update_store_frame (s : SolverState) (gs : GGLState)
    (y_dotk1 xk1 : Vec) :
    (update s y_dotk1 false).2.2.2.2 = s ∧
    (update s y_dotk1 true).2.2.2.2 =
      { s with vk := vk1_of s y_dotk1, yk := yk1_of s y_dotk1,
               y_dotk := y_dotk1,
               uk := ((vk1_of s y_dotk1).drop s.nq).take s.nu } ∧
    (GenAlphaFirstOrderVelocityGGL.update gs xk1 false).2.2.2.2 = gs ∧
    (GenAlphaFirstOrderVelocityGGL.update gs xk1 true).2.2.2.2 =
      { gs with
          vk := alphaBlend gs.alpha_f gs.alpha_m gs.y_dotk gs.vk
            (xk1.take (gs.nq + gs.nu)),
          yk := gammaIntegral gs.dt gs.gamma gs.yk gs.vk
            (alphaBlend gs.alpha_f gs.alpha_m gs.y_dotk gs.vk
              (xk1.take (gs.nq + gs.nu))),
          y_dotk := xk1.take (gs.nq + gs.nu) } :=
  ⟨rfl, rfl, rfl, rfl⟩

/-!  ## Claim C8: re-evaluation of the residual with frozen masks -/

/-- C8 counterexample: on a freshly constructed solver state (where the
attribute `nR_smooth` does not exist yet, modelled as `none`), even a
frozen-mask call of `R` changes solver state: line 388 assigns
`self.nR_smooth` inside `R`. -/
theorem residual_reevaluation_counterexample :
    (R_residual testModel testState 1 [0, 0, 0, 0, 0] false).2 ≠ testState :=
  fun h => Option.noConfusion (congrArg SolverState.nR_smooth h)

/-- C8 (amended): calling `R` twice with the same `t`, the same `x` and
`update_index_set=false` yields identical residual vectors, and the only
state effect of either call is the reassignment
`nR_smooth := nq + nu + 3*nla_g + nla_gamma` (the same dimension-derived
constant on every call); in particular the second call leaves the solver
state unchanged. -/
theorem residual_reevaluation_idempotent (m : Model) (s : SolverState)
    (tk1 : ℚ) (xk1 : Vec) :
    (R_residual m (R_residual m s tk1 xk1 false).2 tk1 xk1 false).1 =
      (R_residual m s tk1 xk1 false).1 ∧
    (R_residual m (R_residual m s tk1 xk1 false).2 tk1 xk1 false).2 =
      (R_residual m s tk1 xk1 false).2 ∧
    (R_residual m s tk1 xk1 false).2 =
      { s with nR_smooth := some (nR_smooth_val s) } :=
  ⟨rfl, rfl, rfl⟩

/-!  ## Claim C9: invalid time horizon accepted at construction -/

/-- C9: constructing either solver with `t1 ≤ t0` (and otherwise
acceptable inputs: valid `DAE_index`, consistent initial conditions) raises
nothing; the conditional expression `t1 if t1 > t0 else ValueError(...)`
stores the un-raised `ValueError` object in the `t1` attribute and
construction completes normally. -/
theorem construction_accepts_invalid_t1 (m : Model) (ls0 : Mat → Vec → Vec)
    (t1 dt rho_inf tol : ℚ) (max_iter : ℕ) (DAE_index : ℤ)
    (hD : 1 ≤ DAE_index ∧ DAE_index ≤ 2)
    (ht1 : t1 ≤ m.t0)
    (hg : m.g m.t0 m.q0 = zeros m.nla_g)
    (hgdot : m.g_dot m.t0 m.q0 m.u0 = zeros m.nla_g)
    (hgddot : m.g_ddot m.t0 m.q0 m.u0
      (GenAlphaFirstOrderVelocityGGLNormalContacts.consistent_u_dot0 m ls0) =
        zeros m.nla_g)
    (hgam : m.gamma m.t0 m.q0 m.u0 = zeros m.nla_gamma)
    (hgamdot : m.gamma_dot m.t0 m.q0 m.u0
      (GenAlphaFirstOrderVelocityGGLNormalContacts.consistent_u_dot0 m ls0) =
        zeros m.nla_gamma)
    (hgN : (m.g_N m.t0 m.q0).all (fun a => decide (0 ≤ a)) = true)
    (hgddot2 : m.g_ddot m.t0 m.q0 m.u0
      ((GenAlphaFirstOrderVelocityGGL.initialAccSol m ls0).take m.nu) =
        zeros m.nla_g)
    (hgamdot2 : m.gamma_dot m.t0 m.q0 m.u0
      ((GenAlphaFirstOrderVelocityGGL.initialAccSol m ls0).take m.nu) =
        zeros m.nla_gamma) :
    (∃ s, GenAlphaFirstOrderVelocityGGLNormalContacts.init m ls0 t1 dt rho_inf
        tol max_iter DAE_index = Except.ok s ∧
      s.t1Field = Sum.inr "t1 must be larger than initial time t0.") ∧
    (∃ gs, GenAlphaFirstOrderVelocityGGL.init m ls0 t1 dt rho_inf tol
        max_iter = Except.ok gs ∧
      gs.t1Field = Sum.inr "t1 must be larger than initial time t0.") := by
  constructor
  · simp only [GenAlphaFirstOrderVelocityGGLNormalContacts.init]
    rw [if_neg (not_not_intro hD), if_neg (not_lt.mpr ht1),
      if_neg (not_not_intro hg), if_neg (not_not_intro hgdot),
      if_neg (not_not_intro hgddot), if_neg (not_not_intro hgam),
      if_neg (not_not_intro hgamdot), if_neg (by simp [hgN])]
    exact ⟨_, rfl, rfl⟩
  · simp only [GenAlphaFirstOrderVelocityGGL.init]
    rw [if_neg (not_lt.mpr ht1), if_neg (not_not_intro hg),
      if_neg (not_not_intro hgdot), if_neg (not_not_intro hgddot2),
      if_neg (not_not_intro hgam), if_neg (not_not_intro hgamdot2)]
    exact ⟨_, rfl, rfl⟩

/-- Witness for `construction_accepts_invalid_t1`: `testModel` with
`t1 = 0 = t0`. -/
theorem construction_accepts_invalid_t1_witness :
    (∃ s, GenAlphaFirstOrderVelocityGGLNormalContacts.init testModel testLS0 0
        1 1 (1/1000000) 40 2 = Except.ok s ∧
      s.t1Field = Sum.inr "t1 must be larger than initial time t0.") ∧
    (∃ gs, GenAlphaFirstOrderVelocityGGL.init testModel testLS0 0 1 1
        (1/1000000) 40 = Except.ok gs ∧
      gs.t1Field = Sum.inr "t1 must be larger than initial time t0.") :=
  construction_accepts_invalid_t1 testModel testLS0 0 1 1 (1/1000000) 40 2
    (by decide) (by with_unfolding_all decide) rfl rfl rfl rfl rfl
    (by with_unfolding_all decide) rfl rfl

/-!  ## Claim C3: the generalized-alpha update equations -/

/-- C3: for every trial derivative vector, the update rule computes
`v_{k+1} = (alpha_f*y_dot_k + (1-alpha_f)*y_dot_{k+1} - alpha_m*v_k)/(1-alpha_m)`
and `y_{k+1} = y_k + dt*((1-gamma)*v_k + gamma*v_{k+1})` (stated elementwise
for the blend `alphaBlend` and the integral `gammaIntegral`, which
`vk1_of`/`yk1_of` instantiate with the stored history), and returns
`q_{k+1}, u_{k+1}` as the first-`nq` and next-`nu` slices of `y_{k+1}` and
`q_dot_{k+1}, u_dot_{k+1}` as the corresponding slices of `y_dot_{k+1}` —
in both the contact solver's `update` and
`GenAlphaFirstOrderVelocityGGL.update` (where `y_dot_{k+1} = x_{k+1}[:ny]`). -/
theorem genalpha_update_formulas
    (alpha_f alpha_m dt gamma : ℚ) (zk zbark zk1 yk : Vec) (i : ℕ)
    (a b c w : ℚ)
    (ha : zk[i]? = some a) (hb : zbark[i]? = some b) (hc : zk1[i]? = some c)
    (hw : yk[i]? = some w)
    (s : SolverState) (gs : GGLState) (y_dotk1 xk1 : Vec) (st : Bool) :
    (alphaBlend alpha_f alpha_m zk zbark zk1)[i]? =
      some ((alpha_f * a + (1 - alpha_f) * c - alpha_m * b) / (1 - alpha_m)) ∧
    (gammaIntegral dt gamma yk zbark (alphaBlend alpha_f alpha_m zk zbark zk1))[i]? =
      some (w + dt * ((1 - gamma) * b + gamma *
        ((alpha_f * a + (1 - alpha_f) * c - alpha_m * b) / (1 - alpha_m)))) ∧
    vk1_of s y_dotk1 = alphaBlend s.alpha_f s.alpha_m s.y_dotk s.vk y_dotk1 ∧
    yk1_of s y_dotk1 = gammaIntegral s.dt s.gamma s.yk s.vk (vk1_of s y_dotk1) ∧
    (update s y_dotk1 st).1 = (yk1_of s y_dotk1).take s.nq ∧
    (update s y_dotk1 st).2.1 = ((yk1_of s y_dotk1).drop s.nq).take s.nu ∧
    (update s y_dotk1 st).2.2.1 = y_dotk1.take s.nq ∧
    (update s y_dotk1 st).2.2.2.1 = (y_dotk1.drop s.nq).take s.nu ∧
    (GenAlphaFirstOrderVelocityGGL.update gs xk1 st).1 =
      (gammaIntegral gs.dt gs.gamma gs.yk gs.vk
        (alphaBlend gs.alpha_f gs.alpha_m gs.y_dotk gs.vk
          (xk1.take (gs.nq + gs.nu)))).take gs.nq ∧
    (GenAlphaFirstOrderVelocityGGL.update gs xk1 st).2.1 =
      ((gammaIntegral gs.dt gs.gamma gs.yk gs.vk
        (alphaBlend gs.alpha_f gs.alpha_m gs.y_dotk gs.vk
          (xk1.take (gs.nq + gs.nu)))).drop gs.nq).take gs.nu ∧
    (GenAlphaFirstOrderVelocityGGL.update gs xk1 st).2.2.1 =
      (xk1.take (gs.nq + gs.nu)).take gs.nq ∧
    (GenAlphaFirstOrderVelocityGGL.update gs xk1 st).2.2.2.1 =
      ((xk1.take (gs.nq + gs.nu)).drop gs.nq).take gs.nu := by
  have hsm1 := getElem?_smul alpha_f zk i a ha
  have hsm2 := getElem?_smul (1 - alpha_f) zk1 i c hc
  have hsm3 := getElem?_smul alpha_m zbark i b hb
  have hv := getElem?_sdiv _ (1 - alpha_m) i _
    (getElem?_vsub _ _ i _ _ (getElem?_vadd _ _ i _ _ hsm1 hsm2) hsm3)
  refine ⟨hv, ?_, rfl, rfl, rfl, rfl, rfl, rfl, rfl, rfl, rfl, rfl⟩
  exact getElem?_vadd _ _ i _ _ hw
    (getElem?_smul dt _ i _
      (getElem?_vadd _ _ i _ _ (getElem?_smul (1 - gamma) zbark i b hb)
        (getElem?_smul gamma _ i _ hv)))

/-- Witness for `genalpha_update_formulas` at concrete data. -/
theorem genalpha_update_formulas_witness :
    (alphaBlend (1/2) (1/2) [1] [2] [3])[0]? =
      some ((1/2 * 1 + (1 - 1/2) * 3 - 1/2 * 2) / (1 - 1/2)) ∧
    (gammaIntegral 1 (1/2) [4] [2] (alphaBlend (1/2) (1/2) [1] [2] [3]))[0]? =
      some (4 + 1 * ((1 - 1/2) * 2 + 1/2 *
        ((1/2 * 1 + (1 - 1/2) * 3 - 1/2 * 2) / (1 - 1/2)))) ∧
    vk1_of testState [0, 2] =
      alphaBlend testState.alpha_f testState.alpha_m testState.y_dotk
        testState.vk [0, 2] ∧
    yk1_of testState [0, 2] =
      gammaIntegral testState.dt testState.gamma testState.yk testState.vk
        (vk1_of testState [0, 2]) ∧
    (update testState [0, 2] true).1 =
      (yk1_of testState [0, 2]).take testState.nq ∧
    (update testState [0, 2] true).2.1 =
      ((yk1_of testState [0, 2]).drop testState.nq).take testState.nu ∧
    (update testState [0, 2] true).2.2.1 = List.take testState.nq [0, 2] ∧
    (update testState [0, 2] true).2.2.2.1 =
      (List.drop testState.nq [0, 2]).take testState.nu ∧
    (GenAlphaFirstOrderVelocityGGL.update testGGLState [0, 2] true).1 =
      (gammaIntegral testGGLState.dt testGGLState.gamma testGGLState.yk
        testGGLState.vk
        (alphaBlend testGGLState.alpha_f testGGLState.alpha_m
          testGGLState.y_dotk testGGLState.vk
          (List.take (testGGLState.nq + testGGLState.nu) [0, 2]))).take
        testGGLState.nq ∧
    (GenAlphaFirstOrderVelocityGGL.update testGGLState [0, 2] true).2.1 =
      ((gammaIntegral testGGLState.dt testGGLState.gamma testGGLState.yk
        testGGLState.vk
        (alphaBlend testGGLState.alpha_f testGGLState.alpha_m
          testGGLState.y_dotk testGGLState.vk
          (List.take (testGGLState.nq + testGGLState.nu) [0, 2]))).drop
        testGGLState.nq).take testGGLState.nu ∧
    (GenAlphaFirstOrderVelocityGGL.update testGGLState [0, 2] true).2.2.1 =
      (List.take (testGGLState.nq + testGGLState.nu) [0, 2]).take
        testGGLState.nq ∧
    (GenAlphaFirstOrderVelocityGGL.update testGGLState [0, 2] true).2.2.2.1 =
      ((List.take (testGGLState.nq + testGGLState.nu) [0, 2]).drop
        testGGLState.nq).take testGGLState.nu :=
  genalpha_update_formulas (1/2) (1/2) 1 (1/2) [1] [2] [3] [4] 0 1 2 3 4
    rfl rfl rfl rfl testState testGGLState [0, 2] [0, 2] true

/-!  ## Claim C7: round-trip of state packing -/

theorem sliceAssign_append (a z v : Vec) (n : ℕ) (ha : a.length = n) :
    sliceAssign (a ++ z) n v = a ++ v ++ z.drop v.length := by
  subst ha
  unfold sliceAssign
  rw [List.take_left, List.drop_append]

theorem sliceAssign_zeros_step (P v : Vec) (R n : ℕ) (hP : P.length = n) :
    sliceAssign (P ++ zeros R) n v = (P ++ v) ++ zeros (R - v.length) := by
  have hd : (zeros R).drop v.length = zeros (R - v.length) := by
    simp [zeros, List.drop_replicate]
  rw [sliceAssign_append P (zeros R) v n hP, hd, List.append_assoc]

theorem take_append_exact (a b : Vec) (n : ℕ) (h : a.length = n) :
    (a ++ b).take n = a := List.take_left' h

theorem drop_append_exact (a b : Vec) (n : ℕ) (h : a.length = n) :
    (a ++ b).drop n = b := by subst h; exact List.drop_left a b

theorem extract_at (P B T : Vec) (n l : ℕ) (hP : P.length = n)
    (hB : B.length = l) : ((P ++ (B ++ T)).drop n).take l = B := by
  rw [drop_append_exact P (B ++ T) n hP, take_append_exact B T l hB]

/-- For inputs of the configured lengths, the nine exact-length slice
assignments of `pack` fill the zero vector completely, producing the
concatenation of the nine blocks. -/
theorem pack_eq_append (s : SolverState)
    (q_dot u_dot kappa_g La_g la_g la_gamma kappa_N La_N la_N : Vec)
    (h1 : q_dot.length = s.nq) (h2 : u_dot.length = s.nu)
    (h3 : kappa_g.length = s.nla_g) (h4 : La_g.length = s.nla_g)
    (h5 : la_g.length = s.nla_g) (h6 : la_gamma.length = s.nla_gamma)
    (h7 : kappa_N.length = s.nla_N) (h8 : La_N.length = s.nla_N)
    (h9 : la_N.length = s.nla_N) :
    pack s q_dot u_dot kappa_g La_g la_g la_gamma kappa_N La_N la_N =
      q_dot ++ u_dot ++ kappa_g ++ La_g ++ la_g ++ la_gamma ++ kappa_N ++
        La_N ++ la_N := by
  simp only [pack]
  rw [show zeros (s.nq + s.nu + 3 * s.nla_g + s.nla_gamma + 3 * s.nla_N) =
      [] ++ zeros (s.nq + s.nu + 3 * s.nla_g + s.nla_gamma + 3 * s.nla_N)
    from rfl]
  rw [sliceAssign_zeros_step [] q_dot _ 0 rfl]
  rw [List.nil_append]
  rw [sliceAssign_zeros_step q_dot u_dot _ s.nq h1]
  rw [sliceAssign_zeros_step _ kappa_g _ (s.nq + s.nu) (by simp only [List.length_append]; omega)]
  rw [sliceAssign_zeros_step _ La_g _ (s.nq + s.nu + s.nla_g)
    (by simp only [List.length_append]; omega)]
  rw [sliceAssign_zeros_step _ la_g _ (s.nq + s.nu + 2 * s.nla_g)
    (by simp only [List.length_append]; omega)]
  rw [sliceAssign_zeros_step _ la_gamma _ (s.nq + s.nu + 3 * s.nla_g)
    (by simp only [List.length_append]; omega)]
  rw [sliceAssign_zeros_step _ kappa_N _ (s.nq + s.nu + 3 * s.nla_g + s.nla_gamma)
    (by simp only [List.length_append]; omega)]
  rw [sliceAssign_zeros_step _ La_N _
    (s.nq + s.nu + 3 * s.nla_g + s.nla_gamma + s.nla_N)
    (by simp only [List.length_append]; omega)]
  rw [sliceAssign_zeros_step _ la_N _
    (s.nq + s.nu + 3 * s.nla_g + s.nla_gamma + 2 * s.nla_N)
    (by simp only [List.length_append]; omega)]
  rw [show (s.nq + s.nu + 3 * s.nla_g + s.nla_gamma + 3 * s.nla_N -
      q_dot.length - u_dot.length - kappa_g.length - La_g.length -
      la_g.length - la_gamma.length - kappa_N.length - La_N.length -
      la_N.length) = 0 from by omega]
  simp [zeros, List.append_assoc]

/-- C7: `unpack (pack (q_dot, u_dot, kappa_g, La_g, la_g, la_gamma,
kappa_N, La_N, la_N))` returns exactly the nine input vectors whenever they
have the solver's configured dimensions: packing is a bijection between the
flat unknown vector and the named quantities. -/
theorem pack_unpack_roundtrip (s : SolverState)
    (q_dot u_dot kappa_g La_g la_g la_gamma kappa_N La_N la_N : Vec)
    (h1 : q_dot.length = s.nq) (h2 : u_dot.length = s.nu)
    (h3 : kappa_g.length = s.nla_g) (h4 : La_g.length = s.nla_g)
    (h5 : la_g.length = s.nla_g) (h6 : la_gamma.length = s.nla_gamma)
    (h7 : kappa_N.length = s.nla_N) (h8 : La_N.length = s.nla_N)
    (h9 : la_N.length = s.nla_N) :
    unpack s (pack s q_dot u_dot kappa_g La_g la_g la_gamma kappa_N La_N la_N) =
      { q_dot := q_dot, u_dot := u_dot, kappa_g := kappa_g, La_g := La_g,
        la_g := la_g, la_gamma := la_gamma, kappa_N := kappa_N, La_N := La_N,
        la_N := la_N } := by
  rw [pack_eq_append s q_dot u_dot kappa_g La_g la_g la_gamma kappa_N La_N
    la_N h1 h2 h3 h4 h5 h6 h7 h8 h9]
  simp only [unpack, Unknowns.mk.injEq]
  refine ⟨?_, ?_, ?_, ?_, ?_, ?_, ?_, ?_, ?_⟩
  · rw [show q_dot ++ u_dot ++ kappa_g ++ La_g ++ la_g ++ la_gamma ++
        kappa_N ++ La_N ++ la_N =
        q_dot ++ (u_dot ++ (kappa_g ++ (La_g ++ (la_g ++ (la_gamma ++
          (kappa_N ++ (La_N ++ la_N))))))) from by simp [List.append_assoc]]
    exact take_append_exact _ _ _ h1
  · rw [show q_dot ++ u_dot ++ kappa_g ++ La_g ++ la_g ++ la_gamma ++
        kappa_N ++ La_N ++ la_N =
        q_dot ++ (u_dot ++ (kappa_g ++ (La_g ++ (la_g ++ (la_gamma ++
          (kappa_N ++ (La_N ++ la_N))))))) from by simp [List.append_assoc]]
    exact extract_at _ _ _ _ _ h1 h2
  · rw [show q_dot ++ u_dot ++ kappa_g ++ La_g ++ la_g ++ la_gamma ++
        kappa_N ++ La_N ++ la_N =
        (q_dot ++ u_dot) ++ (kappa_g ++ (La_g ++ (la_g ++ (la_gamma ++
          (kappa_N ++ (La_N ++ la_N)))))) from by simp [List.append_assoc]]
    exact extract_at _ _ _ _ _ (by simp only [List.length_append]; omega) h3
  · rw [show q_dot ++ u_dot ++ kappa_g ++ La_g ++ la_g ++ la_gamma ++
        kappa_N ++ La_N ++ la_N =
        (q_dot ++ u_dot ++ kappa_g) ++ (La_g ++ (la_g ++ (la_gamma ++
          (kappa_N ++ (La_N ++ la_N))))) from by simp [List.append_assoc]]
    exact extract_at _ _ _ _ _ (by simp only [List.length_append]; omega) h4
  · rw [show q_dot ++ u_dot ++ kappa_g ++ La_g ++ la_g ++ la_gamma ++
        kappa_N ++ La_N ++ la_N =
        (q_dot ++ u_dot ++ kappa_g ++ La_g) ++ (la_g ++ (la_gamma ++
          (kappa_N ++ (La_N ++ la_N)))) from by simp [List.append_assoc]]
    exact extract_at _ _ _ _ _ (by simp only [List.length_append]; omega) h5
  · rw [show q_dot ++ u_dot ++ kappa_g ++ La_g ++ la_g ++ la_gamma ++
        kappa_N ++ La_N ++ la_N =
        (q_dot ++ u_dot ++ kappa_g ++ La_g ++ la_g) ++ (la_gamma ++
          (kappa_N ++ (La_N ++ la_N))) from by simp [List.append_assoc]]
    exact extract_at _ _ _ _ _ (by simp only [List.length_append]; omega) h6
  · rw [show q_dot ++ u_dot ++ kappa_g ++ La_g ++ la_g ++ la_gamma ++
        kappa_N ++ La_N ++ la_N =
        (q_dot ++ u_dot ++ kappa_g ++ La_g ++ la_g ++ la_gamma) ++
          (kappa_N ++ (La_N ++ la_N)) from by simp [List.append_assoc]]
    exact extract_at _ _ _ _ _ (by simp only [List.length_append]; omega) h7
  · rw [show q_dot ++ u_dot ++ kappa_g ++ La_g ++ la_g ++ la_gamma ++
        kappa_N ++ La_N ++ la_N =
        (q_dot ++ u_dot ++ kappa_g ++ La_g ++ la_g ++ la_gamma ++ kappa_N) ++
          (La_N ++ la_N) from by simp [List.append_assoc]]
    exact extract_at _ _ _ _ _
      (by simp only [List.length_append]; omega) h8
  · rw [show q_dot ++ u_dot ++ kappa_g ++ La_g ++ la_g ++ la_gamma ++
        kappa_N ++ La_N ++ la_N =
        (q_dot ++ u_dot ++ kappa_g ++ La_g ++ la_g ++ la_gamma ++ kappa_N ++
          La_N) ++ la_N from by simp [List.append_assoc]]
    rw [drop_append_exact _ _ _
      (by simp only [List.length_append]; omega)]
    rw [← h9, List.take_length]

/-- Witness for `pack_unpack_roundtrip` at the dimensions of `testState`
(`nq = nu = nla_N = 1`, `nla_g = nla_gamma = 0`). -/
theorem pack_unpack_roundtrip_witness :
    unpack testState (pack testState [1] [2] [] [] [] [] [3] [4] [5]) =
      { q_dot := [1], u_dot := [2], kappa_g := [], La_g := [], la_g := [],
        la_gamma := [], kappa_N := [3], La_N := [4], la_N := [5] } :=
  pack_unpack_roundtrip testState [1] [2] [] [] [] [] [3] [4] [5]
    rfl rfl rfl rfl rfl rfl rfl rfl rfl

/-!  ## Claim C2: nesting of the active-set masks -/

/-- C2: whenever the active-set masks are recomputed (a call of `R` with
`update_index_set=True`, as `step` performs on every Newton iteration), the
stored masks are nested: for every contact index `i`, `Ci1[i]` implies
`Bi1[i]` and `Bi1[i]` implies `Ai1[i]` — by construction, since lines
399/401 multiply each new mask by the previous one. -/
theorem active_set_masks_nested (m : Model) (s : SolverState) (tk1 : ℚ)
    (xk1 : Vec) (i : ℕ) (a b c : Bool)
    (hA : ((R_residual m s tk1 xk1 true).2.Ai1)[i]? = some a)
    (hB : ((R_residual m s tk1 xk1 true).2.Bi1)[i]? = some b)
    (hC : ((R_residual m s tk1 xk1 true).2.Ci1)[i]? = some c) :
    (c = true → b = true) ∧ (b = true → a = true) := by
  have hA' : (mask_A m s tk1 xk1)[i]? = some a := hA
  have hB' : (mask_B m s tk1 xk1)[i]? = some b := hB
  have hC' : (mask_C m s tk1 xk1)[i]? = some c := hC
  rw [mask_B, getElem?_zipWith_eq_some_iff] at hB'
  obtain ⟨x, y, hx, _hy, hbval⟩ := hB'
  have hxa : x = a := Option.some.inj (hx.symm.trans hA')
  rw [mask_C, getElem?_zipWith_eq_some_iff] at hC'
  obtain ⟨u, v, hu, _hv, hcval⟩ := hC'
  have hub : u = b := Option.some.inj (hu.symm.trans hB)
  constructor
  · intro hc
    rw [hcval, hub] at hc
    exact (Bool.and_eq_true b v).mp hc |>.1
  · intro hb
    rw [hbval, hxa] at hb
    exact (Bool.and_eq_true a y).mp hb |>.1

/-- Witness for `active_set_masks_nested` on `testModel` (one contact,
index `0`, recomputed masks all `false` at the trial point). -/
theorem active_set_masks_nested_witness :
    (false = true → false = true) ∧ (false = true → false = true) :=
  active_set_masks_nested testModel testState 1 [0, 0, 0, 0, 0] 0 false false
    false (by with_unfolding_all decide) (by with_unfolding_all decide)
    (by with_unfolding_all decide)

/-!  ## Claim C1: the three-level contact residual rows -/

/-- C1: in the contact solver's residual, for every contact index `i` (with
every block filling its numpy slice, i.e. the well-formedness length
hypotheses): the first-level contact row (position `nR_smooth + i`) equals
the gap `g_N[i]` when mask `A[i]` holds and `kappa_hat_N[i]` otherwise; the
second-level row (position `nR_smooth + nla_N + i`) equals `xi_N[i]` when
`A[i]` and `B[i]` both hold and `P_N[i]` otherwise; the third-level row
(position `nR_smooth + 2*nla_N + i`) equals `g_N_ddot[i]` when `A[i]`,
`B[i]` and `C[i]` all hold and `la_N[i]` otherwise.  The masks are the ones
in effect for the call (recomputed when `update_index_set` is true, the
stored ones otherwise), i.e. the masks of the post-call state. -/
theorem contact_residual_three_levels (m : Model) (s : SolverState)
    (tk1 : ℚ) (xk1 : Vec) (uis : Bool) (i : ℕ) (ai bi ci : Bool)
    (gN kh xiN PN gddN laN : ℚ)
    (hkin : (Rkin m s tk1 xk1).length = s.nq)
    (hdyn : (Rdyn m s tk1 xk1).length = s.nu)
    (hg : (m.g tk1 (qk1_of s xk1)).length = s.nla_g)
    (hgd : (m.g_dot tk1 (qk1_of s xk1) (uk1_of s xk1)).length = s.nla_g)
    (hgdd : (m.g_ddot tk1 (qk1_of s xk1) (uk1_of s xk1)
      (u_dotk1_of s xk1)).length = s.nla_g)
    (hgam : (m.gamma tk1 (qk1_of s xk1) (uk1_of s xk1)).length = s.nla_gamma)
    (hlA : ((R_residual m s tk1 xk1 uis).2.Ai1).length = s.nla_N)
    (hlB : ((R_residual m s tk1 xk1 uis).2.Bi1).length = s.nla_N)
    (hlgN : (g_Nk1_of m s tk1 xk1).length = s.nla_N)
    (hlkh : (kappa_hatNk1_of s (unpack s xk1).kappa_N
      (unpack s xk1).la_N).length = s.nla_N)
    (hlxi : (xi_Nk1_of m s tk1 xk1).length = s.nla_N)
    (hlPN : (P_Nk1_of s (unpack s xk1).La_N (unpack s xk1).la_N).length =
      s.nla_N)
    (ha : ((R_residual m s tk1 xk1 uis).2.Ai1)[i]? = some ai)
    (hb : ((R_residual m s tk1 xk1 uis).2.Bi1)[i]? = some bi)
    (hc : ((R_residual m s tk1 xk1 uis).2.Ci1)[i]? = some ci)
    (hgN : (g_Nk1_of m s tk1 xk1)[i]? = some gN)
    (hkh : (kappa_hatNk1_of s (unpack s xk1).kappa_N
      (unpack s xk1).la_N)[i]? = some kh)
    (hxi : (xi_Nk1_of m s tk1 xk1)[i]? = some xiN)
    (hPN : (P_Nk1_of s (unpack s xk1).La_N (unpack s xk1).la_N)[i]? =
      some PN)
    (hgdN : (g_N_ddotk1_of m s tk1 xk1)[i]? = some gddN)
    (hlaN : ((unpack s xk1).la_N)[i]? = some laN) :
    ((R_residual m s tk1 xk1 uis).1)[nR_smooth_val s + i]? =
      some (if ai then gN else kh) ∧
    ((R_residual m s tk1 xk1 uis).1)[nR_smooth_val s + s.nla_N + i]? =
      some (if ai && bi then xiN else PN) ∧
    ((R_residual m s tk1 xk1 uis).1)[nR_smooth_val s + 2 * s.nla_N + i]? =
      some (if ai && bi && ci then gddN else laN) := by
  have ha' : ((if uis then mask_A m s tk1 xk1 else s.Ai1))[i]? = some ai := ha
  have hb' : ((if uis then mask_B m s tk1 xk1 else s.Bi1))[i]? = some bi := hb
  have hc' : ((if uis then mask_C m s tk1 xk1 else s.Ci1))[i]? = some ci := hc
  have hlA' : ((if uis then mask_A m s tk1 xk1 else s.Ai1)).length = s.nla_N :=
    hlA
  have hlB' : ((if uis then mask_B m s tk1 xk1 else s.Bi1)).length = s.nla_N :=
    hlB
  have hfl : (R_residual m s tk1 xk1 uis).1 =
      R_flat m s tk1 xk1 (if uis then mask_A m s tk1 xk1 else s.Ai1)
        (if uis then mask_B m s tk1 xk1 else s.Bi1)
        (if uis then mask_C m s tk1 xk1 else s.Ci1) := rfl
  have hr1 : (zipWith3 (fun mi gi ki => if mi then gi else ki)
      (if uis then mask_A m s tk1 xk1 else s.Ai1)
      (g_Nk1_of m s tk1 xk1)
      (kappa_hatNk1_of s (unpack s xk1).kappa_N (unpack s xk1).la_N)).length =
      s.nla_N := by
    rw [length_zipWith3, hlA', hlgN, hlkh]; simp
  have hr2 : (zipWith3 (fun mi xi pi => if mi then xi else pi)
      (List.zipWith (fun x y => x && y)
        (if uis then mask_A m s tk1 xk1 else s.Ai1)
        (if uis then mask_B m s tk1 xk1 else s.Bi1))
      (xi_Nk1_of m s tk1 xk1)
      (P_Nk1_of s (unpack s xk1).La_N (unpack s xk1).la_N)).length =
      s.nla_N := by
    rw [length_zipWith3, List.length_zipWith, hlA', hlB', hlxi, hlPN]; simp
  refine ⟨?_, ?_, ?_⟩
  · rw [hfl]
    simp only [R_flat]
    rw [show nR_smooth_val s + i =
        (Rkin m s tk1 xk1 ++ Rdyn m s tk1 xk1 ++ m.g tk1 (qk1_of s xk1) ++
          m.g_dot tk1 (qk1_of s xk1) (uk1_of s xk1) ++
          m.g_ddot tk1 (qk1_of s xk1) (uk1_of s xk1) (u_dotk1_of s xk1) ++
          m.gamma tk1 (qk1_of s xk1) (uk1_of s xk1)).length + i
      from by
        simp only [List.length_append, hkin, hdyn, hg, hgd, hgdd, hgam,
          nR_smooth_val]
        omega]
    refine getElem?_append_of_some _ _ _ _ (getElem?_append_of_some _ _ _ _ ?_)
    rw [getElem?_append_offset]
    exact getElem?_zipWith3_some _ _ _ _ _ _ _ _ ha' hgN hkh
  · rw [hfl]
    simp only [R_flat]
    rw [show nR_smooth_val s + s.nla_N + i =
        (Rkin m s tk1 xk1 ++ Rdyn m s tk1 xk1 ++ m.g tk1 (qk1_of s xk1) ++
          m.g_dot tk1 (qk1_of s xk1) (uk1_of s xk1) ++
          m.g_ddot tk1 (qk1_of s xk1) (uk1_of s xk1) (u_dotk1_of s xk1) ++
          m.gamma tk1 (qk1_of s xk1) (uk1_of s xk1) ++
          zipWith3 (fun mi gi ki => if mi then gi else ki)
            (if uis then mask_A m s tk1 xk1 else s.Ai1)
            (g_Nk1_of m s tk1 xk1)
            (kappa_hatNk1_of s (unpack s xk1).kappa_N
              (unpack s xk1).la_N)).length + i
      from by
        simp only [List.length_append, hkin, hdyn, hg, hgd, hgdd, hgam, hr1,
          nR_smooth_val]
        omega]
    refine getElem?_append_of_some _ _ _ _ ?_
    rw [getElem?_append_offset]
    exact getElem?_zipWith3_some _ _ _ _ _ _ _ _
      (getElem?_zipWith_some _ _ _ _ _ _ ha' hb') hxi hPN
  · rw [hfl]
    simp only [R_flat]
    rw [show nR_smooth_val s + 2 * s.nla_N + i =
        (Rkin m s tk1 xk1 ++ Rdyn m s tk1 xk1 ++ m.g tk1 (qk1_of s xk1) ++
          m.g_dot tk1 (qk1_of s xk1) (uk1_of s xk1) ++
          m.g_ddot tk1 (qk1_of s xk1) (uk1_of s xk1) (u_dotk1_of s xk1) ++
          m.gamma tk1 (qk1_of s xk1) (uk1_of s xk1) ++
          zipWith3 (fun mi gi ki => if mi then gi else ki)
            (if uis then mask_A m s tk1 xk1 else s.Ai1)
            (g_Nk1_of m s tk1 xk1)
            (kappa_hatNk1_of s (unpack s xk1).kappa_N (unpack s xk1).la_N) ++
          zipWith3 (fun mi xi pi => if mi then xi else pi)
            (List.zipWith (fun x y => x && y)
              (if uis then mask_A m s tk1 xk1 else s.Ai1)
              (if uis then mask_B m s tk1 xk1 else s.Bi1))
            (xi_Nk1_of m s tk1 xk1)
            (P_Nk1_of s (unpack s xk1).La_N (unpack s xk1).la_N)).length + i
      from by
        simp only [List.length_append, hkin, hdyn, hg, hgd, hgdd, hgam, hr1,
          hr2, nR_smooth_val]
        omega]
    rw [getElem?_append_offset]
    exact getElem?_zipWith3_some _ _ _ _ _ _ _ _
      (getElem?_zipWith_some _ _ _ _ _ _
        (getElem?_zipWith_some _ _ _ _ _ _ ha' hb') hc') hgdN hlaN

/-- Witness for `contact_residual_three_levels` on `testModel` at the first
trial point (index `0`, all masks `false`, gap `1`): the three contact rows
are `kappa_hat_N[0] = 0`, `P_N[0] = 0`, `la_N[0] = 0`. -/
theorem contact_residual_three_levels_witness :
    ((R_residual testModel testState 1 [0, 0, 0, 0, 0] true).1)[
        nR_smooth_val testState + 0]? = some (if false then 1 else 0) ∧
    ((R_residual testModel testState 1 [0, 0, 0, 0, 0] true).1)[
        nR_smooth_val testState + testState.nla_N + 0]? =
      some (if false && false then 0 else 0) ∧
    ((R_residual testModel testState 1 [0, 0, 0, 0, 0] true).1)[
        nR_smooth_val testState + 2 * testState.nla_N + 0]? =
      some (if false && false && false then 0 else 0) :=
  contact_residual_three_levels testModel testState 1 [0, 0, 0, 0, 0] true 0
    false false false 1 0 0 0 0 0
    (by with_unfolding_all decide) (by with_unfolding_all decide)
    (by with_unfolding_all decide) (by with_unfolding_all decide)
    (by with_unfolding_all decide) (by with_unfolding_all decide)
    (by with_unfolding_all decide) (by with_unfolding_all decide)
    (by with_unfolding_all decide) (by with_unfolding_all decide)
    (by with_unfolding_all decide) (by with_unfolding_all decide)
    (by with_unfolding_all decide) (by with_unfolding_all decide)
    (by with_unfolding_all decide) (by with_unfolding_all decide)
    (by with_unfolding_all decide) (by with_unfolding_all decide)
    (by with_unfolding_all decide) (by with_unfolding_all decide)
    (by with_unfolding_all decide)

/-!  ## Claim C10: DAE_index independence -/

theorem R_residual_dae (m : Model) (s : SolverState) (tk1 : ℚ) (xk1 : Vec)
    (uis : Bool) (d : ℤ) :
    R_residual m { s with DAE_index := d } tk1 xk1 uis =
      ((R_residual m s tk1 xk1 uis).1,
       { (R_residual m s tk1 xk1 uis).2 with DAE_index := d }) := rfl

theorem update_dae (s : SolverState) (y : Vec) (st : Bool) (d : ℤ) :
    update { s with DAE_index := d } y st =
      ((update s y st).1, (update s y st).2.1, (update s y st).2.2.1,
       (update s y st).2.2.2.1,
       { (update s y st).2.2.2.2 with DAE_index := d }) := by
  cases st <;> rfl

theorem unpack_dae (s : SolverState) (x : Vec) (d : ℤ) :
    unpack { s with DAE_index := d } x = unpack s x := rfl

theorem step_dae (m : Model) (errf : Vec → ℚ) (s : SolverState) (tk1 : ℚ)
    (xk1 : Vec) (d : ℤ) :
    step m errf { s with DAE_index := d } tk1 xk1 =
      Except.map (fun r => (r.1, { r.2 with DAE_index := d }))
        (step m errf s tk1 xk1) := by
  simp only [step, R_residual_dae]
  rw [show ({ s with DAE_index := d } : SolverState).tol = s.tol from rfl,
    show ({ s with DAE_index := d } : SolverState).max_iter = s.max_iter
      from rfl]
  by_cases hC : errf (R_residual m s tk1 xk1 true).1 < s.tol
  · simp only [if_pos hC, Except.map]
  · by_cases hM : 0 < s.max_iter
    · simp only [if_neg hC, if_pos hM, Except.map]
    · simp only [if_neg hC, if_neg hM, Except.map]

theorem y_dot_of_dae (s : SolverState) (x : Vec) (d : ℤ) :
    y_dot_of { s with DAE_index := d } x = y_dot_of s x := rfl

theorem state_update_commute (W : SolverState) (d : ℤ) (t : ℚ) (x : Vec) :
    ({ { W with DAE_index := d } with tk := t, xk := x } : SolverState) =
      { { W with tk := t, xk := x } with DAE_index := d } := rfl

theorem solveLoop_dae (m : Model) (errf : Vec → ℚ) (fuel : ℕ)
    (s : SolverState) (acc : Solution) (d : ℤ) :
    solveLoop m errf fuel { s with DAE_index := d } acc =
      solveLoop m errf fuel s acc := by
  induction fuel generalizing s acc with
  | zero => rfl
  | succ n ih =>
      simp only [solveLoop]
      rw [show ({ s with DAE_index := d } : SolverState).tk = s.tk from rfl,
        show ({ s with DAE_index := d } : SolverState).dt = s.dt from rfl,
        show ({ s with DAE_index := d } : SolverState).xk = s.xk from rfl,
        step_dae]
      cases hs : step m errf s (s.tk + s.dt) s.xk with
      | error e => simp only [hs, Except.map]
      | ok r =>
          simp only [hs, Except.map]
          cases hC : r.1.1 with
          | false => simp only [hC, Bool.false_eq_true, if_false, reduceIte]
          | true =>
              simp only [hC, if_true, reduceIte, unpack_dae, y_dot_of_dae,
                update_dae, state_update_commute]
              exact ih
                { (update r.2 (y_dot_of r.2 r.1.2.2.2) true).2.2.2.2 with
                  tk := s.tk + s.dt, xk := r.1.2.2.2 } _

theorem solve_dae (m : Model) (errf : Vec → ℚ) (s : SolverState) (d : ℤ) :
    solve m errf { s with DAE_index := d } = solve m errf s := by
  rcases ht : s.t1Field with t1 | e
  · simp only [solve, ht]
    rw [← ht]
    exact solveLoop_dae m errf _ s _ d
  · simp [solve, ht]

/-- C10: for the contact solver, the `DAE_index` constructor argument has
no effect on behavior: for any two accepted values (`1` or `2`, the range
enforced by the constructor's assertion) and otherwise identical state, the
residual, every Newton step (its result quadruple, or the raised
exception), and the returned solution are identical, because the residual
always enforces the bilateral constraints at position, velocity and
acceleration level simultaneously (lines 378-385) and `DAE_index` is never
read after construction. -/
theorem DAE_index_independence (m : Model) (errf : Vec → ℚ)
    (s : SolverState) (d1 d2 : ℤ)
    (_h1 : d1 = 1 ∨ d1 = 2) (_h2 : d2 = 1 ∨ d2 = 2)
    (tk1 : ℚ) (xk1 : Vec) (uis : Bool) :
    (R_residual m { s with DAE_index := d1 } tk1 xk1 uis).1 =
      (R_residual m { s with DAE_index := d2 } tk1 xk1 uis).1 ∧
    Except.map Prod.fst (step m errf { s with DAE_index := d1 } tk1 xk1) =
      Except.map Prod.fst (step m errf { s with DAE_index := d2 } tk1 xk1) ∧
    solve m errf { s with DAE_index := d1 } =
      solve m errf { s with DAE_index := d2 } := by
  refine ⟨?_, ?_, ?_⟩
  · exact (congrArg Prod.fst (R_residual_dae m s tk1 xk1 uis d1)).trans
      (congrArg Prod.fst (R_residual_dae m s tk1 xk1 uis d2)).symm
  · have e1 := step_dae m errf s tk1 xk1 d1
    have e2 := step_dae m errf s tk1 xk1 d2
    rw [e1, e2]
    rcases step m errf s tk1 xk1 with err | r <;> rfl
  · exact (solve_dae m errf s d1).trans (solve_dae m errf s d2).symm

/-- Witness for `DAE_index_independence`: `testModel` with the two accepted
values `DAE_index = 1` and `DAE_index = 2`. -/
theorem DAE_index_independence_witness :
    (R_residual testModel { testState with DAE_index := 1 } 1 [0, 0, 0, 0, 0]
        true).1 =
      (R_residual testModel { testState with DAE_index := 2 } 1
        [0, 0, 0, 0, 0] true).1 ∧
    Except.map Prod.fst (step testModel maxAbsError
        { testState with DAE_index := 1 } 1 [0, 0, 0, 0, 0]) =
      Except.map Prod.fst (step testModel maxAbsError
        { testState with DAE_index := 2 } 1 [0, 0, 0, 0, 0]) ∧
    solve testModel maxAbsError { testState with DAE_index := 1 } =
      solve testModel maxAbsError { testState with DAE_index := 2 } :=
  DAE_index_independence testModel maxAbsError testState 1 2
    (Or.inl rfl) (Or.inr rfl) 1 [0, 0, 0, 0, 0] true

/-!  ## Claim C6: non-convergence and the abort path -/

/-- C6 (code bug): the claim describes the intended behavior — the driver's
`raise RuntimeError(...)` of lines 546-549 reporting the iteration count
and the last error value — but that path is unreachable for
`max_iter >= 1`: whenever the Newton iteration has to iterate at all (the
initial residual error is not below `tol`), the first Jacobian build
(lines 470-474) calls `self.__R`, which dereferences the missing
`__R_gen_analytic` (only a commented-out definition remains at line 288),
and the solve dies with an `AttributeError` that reports neither an
iteration count nor an error value.  This theorem evaluates the embedded
code on that path: the whole solve aborts with the `AttributeError`. -/
theorem newton_divergence_attribute_error (m : Model) (errf : Vec → ℚ)
    (s : SolverState) (t1 : ℚ)
    (ht : s.t1Field = Sum.inl t1)
    (hn : 1 ≤ numSteps s.t0 t1 s.dt)
    (hm : 0 < s.max_iter)
    (hfail : ¬ errf (R_residual m s (s.tk + s.dt) s.xk true).1 < s.tol) :
    solve m errf s = .error (.attributeError
      "_GenAlphaFirstOrderVelocityGGLNormalContacts__R_gen_analytic") := by
  simp only [solve, ht]
  obtain ⟨k, hk⟩ : ∃ k, numSteps s.t0 t1 s.dt = k + 1 :=
    ⟨numSteps s.t0 t1 s.dt - 1, by omega⟩
  rw [hk]
  simp only [solveLoop, step, if_neg hfail, if_pos hm]

set_option maxRecDepth 40000 in
/-- Witness for `newton_divergence_attribute_error`: on `testModel` with
`max_iter = 1` the initial residual error is `1 > tol`, so the first
Jacobian build is reached and the solve aborts with the `AttributeError`
for the missing `__R_gen_analytic`. -/
theorem newton_divergence_attribute_error_witness :
    solve testModel maxAbsError testState = .error (.attributeError
      "_GenAlphaFirstOrderVelocityGGLNormalContacts__R_gen_analytic") :=
  newton_divergence_attribute_error testModel maxAbsError testState 1 rfl
    (by with_unfolding_all decide) (by decide)
    (by with_unfolding_all decide)

end Cardillo